import Mathlib

/-!
Verification of the coastal-erosion monitoring notebooks
(`Coastal_erosion_monitoring.ipynb`, `do_it_yourself_notebook.ipynb`).

The pipeline embedded here follows the notebook cells:
1. load a cloud-masked Landsat time series (`waterline_funcs.load_cloudmaskedlandsat`);
2. compute the MNDWI water index
   `(landsat_ds.green - landsat_ds.swir1)/(landsat_ds.green + landsat_ds.swir1)`;
3. attach an interpolated tide height to each timestep;
4. filter timesteps by tide height,
   `landsat_ds.where((tide_height > tide_range[0]) & (tide_height < tide_range[1]), drop=True)`;
5. composite per calendar period,
   `landsat_hightide.MNDWI.resample(time=time_step).median('time')`;
6. extract shoreline contours (`waterline_funcs.contour_extract`) at level 0 with
   `min_vertices=100`, tagged with `str(i)[0:10]` period labels.

Floating-point cells are modelled as `Option ℚ`: `none` models NaN (a cloud-masked
or undefined cell), `some q` a finite value.  Rasters are row lists of cell lists.
-/

/-- A raster cell: `none` models NaN (masked / undefined), `some q` a finite value. -/
abbrev Val := Option ℚ

/-- A single-band raster: a list of rows, each a list of cells. -/
abbrev Grid := List (List Val)

/-- Build an `ny × nx` raster from a cell function. -/
def mkGrid (ny nx : Nat) (f : Nat → Nat → Val) : Grid :=
  (List.range ny).map (fun i => (List.range nx).map (fun j => f i j))

/-- Read raster cell `(i, j)`; out of range reads as NaN. -/
def getCell (g : Grid) (i j : Nat) : Val :=
  ((g.get? i).bind (fun row => row.get? j)).getD none

/-- A raster has exactly `ny` rows of `nx` cells each. -/
def gridWF (ny nx : Nat) (g : Grid) : Prop :=
  g.length = ny ∧ ∀ row ∈ g, row.length = nx

/-- The MNDWI water index of one pixel, from
`(landsat_ds.green - landsat_ds.swir1)/(landsat_ds.green + landsat_ds.swir1)`
in `Coastal_erosion_monitoring.ipynb`.  A zero denominator is the float
division `0/0` (for non-negative reflectances) and yields NaN, modelled `none`. -/
def mndwi (green swir1 : ℚ) : Val :=
  if green + swir1 = 0 then none else some ((green - swir1) / (green + swir1))

/-- Elementwise MNDWI on possibly-NaN cells: NaN operands propagate. -/
def mndwiVal (g s : Val) : Val :=
  match g, s with
  | some gv, some sv => mndwi gv sv
  | _, _ => none

/-- C1 -- the claim says every pair `green = swir1` yields NaN; at
`green = swir1 = 1` the index is `(1-1)/(1+1) = 0`, a defined value, so the
claim is false. -/
theorem C1_counterexample : mndwi 1 1 = some 0 ∧ mndwi 1 1 ≠ none := by
  constructor
  · norm_num [mndwi]
  · norm_num [mndwi]
    simp

/-- C1 (amended) -- for equal band values the numerator is zero: the MNDWI
computation yields NaN exactly when `green = swir1 = 0`, and the defined value
`0` otherwise. -/
theorem C1_mndwi_equal_bands (g : ℚ) :
    mndwi g g = if g = 0 then none else some 0 := by
  by_cases h : g = 0
  · simp [mndwi, h]
  · have hgg : g + g ≠ 0 := by
      intro hc
      exact h (by linarith)
    simp [mndwi, h, hgg]

/-- C4 -- for non-negative reflectances, every defined MNDWI value lies in
`[-1, 1]`. -/
theorem C4_mndwi_bounded (g s v : ℚ) (hg : 0 ≤ g) (hs : 0 ≤ s)
    (hv : mndwi g s = some v) : -1 ≤ v ∧ v ≤ 1 := by
  unfold mndwi at hv
  by_cases h : g + s = 0
  · simp [h] at hv
  · simp only [h, if_false, Option.some.injEq] at hv
    have hpos : 0 < g + s := lt_of_le_of_ne (by linarith) (Ne.symm h)
    subst hv
    constructor
    · rw [le_div_iff₀ hpos]
      linarith
    · rw [div_le_one hpos]
      linarith

/-- C4 witness: at `green = 3`, `swir1 = 1` the value `1/2` is in bounds. -/
theorem C4_mndwi_bounded_witness :
    (0:ℚ) ≤ 3 ∧ (0:ℚ) ≤ 1 ∧ mndwi 3 1 = some (1/2) ∧
      (-1 ≤ (1/2 : ℚ) ∧ (1/2 : ℚ) ≤ 1) :=
  ⟨by norm_num, by norm_num, by norm_num [mndwi],
    C4_mndwi_bounded 3 1 (1/2) (by norm_num) (by norm_num) (by norm_num [mndwi])⟩

/-- C5 -- the water index at `green = 3`, `swir1 = 1` is exactly
`(3-1)/(3+1) = 0.5`. -/
theorem C5_mndwi_at_3_1 : mndwi 3 1 = some (1/2) := by
  norm_num [mndwi]

/-- C8 -- swapping the two bands negates the index whenever the denominator is
non-zero. -/
theorem C8_mndwi_antisymm (g s : ℚ) (h : g + s ≠ 0) :
    ∃ v, mndwi g s = some v ∧ mndwi s g = some (-v) := by
  refine ⟨(g - s) / (g + s), ?_, ?_⟩
  · simp [mndwi, h]
  · have h' : s + g ≠ 0 := by
      rw [add_comm]
      exact h
    simp only [mndwi, h', if_false, Option.some.injEq]
    rw [add_comm s g, ← neg_div, neg_sub]

/-- C8 witness: at `green = 3`, `swir1 = 1` the swapped index is `-(1/2)`. -/
theorem C8_mndwi_antisymm_witness :
    (3:ℚ) + 1 ≠ 0 ∧ ∃ v, mndwi 3 1 = some v ∧ mndwi 1 3 = some (-v) :=
  ⟨by norm_num, C8_mndwi_antisymm 3 1 (by norm_num)⟩

/-- A timestamp as numpy `datetime64` components. -/
structure Datetime where
  year : Nat
  month : Nat
  day : Nat
  hour : Nat
  minute : Nat
  second : Nat
deriving DecidableEq, Repr

/-- One timestep of the loaded image time series: its acquisition time, the
tide height later attached by interpolation (`landsat_ds['tide_height']`),
and its named band rasters. -/
structure Timestep where
  time : Datetime
  tide_height : ℚ
  bands : List (String × Grid)
deriving DecidableEq

/-- The image time series (an `xarray.Dataset`): a coordinate reference
system, an affine transform, a spatial grid shape, and the timesteps. -/
structure Dataset where
  crs : String
  transform : List ℚ
  ny : Nat
  nx : Nat
  steps : List Timestep
deriving DecidableEq

/-- Names of a timestep's bands, in order. -/
def Timestep.bandNames (t : Timestep) : List String :=
  t.bands.map Prod.fst

/-- Look up a band raster by name. -/
def Timestep.band (t : Timestep) (name : String) : Grid :=
  ((t.bands.find? (fun b => b.1 = name)).map Prod.snd).getD []

/-- All timesteps share the band set `B` and the dataset's `ny × nx` grid:
the invariant the spec states for the loaded series. -/
def Dataset.uniform (d : Dataset) (B : List String) : Prop :=
  ∀ t ∈ d.steps, t.bandNames = B ∧ ∀ bg ∈ t.bands, gridWF d.ny d.nx bg.2

/-- The raw content of one Landsat scene: per band name, per pixel, a
cloud-masked cell (`none` where cloud was masked out). -/
structure SceneData where
  time : Datetime
  sample : String → Nat → Nat → Val

/-- Modelled from the spec: `waterline_funcs.load_cloudmaskedlandsat` is
invoked by the notebook but its implementation is not in the provided
material.  Per the spec it acquires a cloud-masked multispectral image time
series on one output grid, with the invariant that all timesteps share a
common spatial grid and band set after loading.  Each scene becomes one
timestep whose bands are exactly the requested `bands`, every raster built
on the common `ny × nx` grid. -/
def load_cloudmaskedlandsat (crs : String) (transform : List ℚ) (ny nx : Nat)
    (bands : List String) (scenes : List SceneData) : Dataset :=
  { crs := crs
    transform := transform
    ny := ny
    nx := nx
    steps := scenes.map (fun sc =>
      { time := sc.time
        tide_height := 0
        bands := bands.map (fun b => (b, mkGrid ny nx (fun i j => sc.sample b i j))) }) }

/-- The MNDWI cell of a timestep at pixel `(i, j)`, from the bands `green`
and `swir1`. -/
def Timestep.mndwiAt (t : Timestep) (i j : Nat) : Val :=
  mndwiVal (getCell (t.band "green") i j) (getCell (t.band "swir1") i j)

/-- `landsat_ds['MNDWI'] = (landsat_ds.green - landsat_ds.swir1)/(landsat_ds.green
+ landsat_ds.swir1)`: add the elementwise water index as a new band of every
timestep, on the dataset's grid. -/
def addMNDWI (d : Dataset) : Dataset :=
  { d with steps := d.steps.map (fun t =>
      { t with bands := t.bands ++ [("MNDWI", mkGrid d.ny d.nx (fun i j => t.mndwiAt i j))] }) }

/-- `landsat_ds['tide_height'] = landsat_tideheights.tide_height`: attach the
interpolated tide height to every timestep.  The interpolation itself is the
external `tide_data_xr.interp`, represented by the estimate function `est`. -/
def addTide (est : Datetime → ℚ) (d : Dataset) : Dataset :=
  { d with steps := d.steps.map (fun t => { t with tide_height := est t.time }) }

/-- `landsat_ds.where((landsat_ds.tide_height > tide_range[0]) &
(landsat_ds.tide_height < tide_range[1]), drop=True)`: keep exactly the
timesteps whose tide height is strictly inside the range. -/
def tideFilter (tide_range : ℚ × ℚ) (d : Dataset) : Dataset :=
  { d with steps := d.steps.filter (fun t =>
      decide (tide_range.1 < t.tide_height) && decide (t.tide_height < tide_range.2)) }

/-- C2 -- tide filtering retains a timestep iff its tide height is strictly
inside the range; a timestep whose tide height equals either endpoint is
excluded. -/
theorem C2_tideFilter_strict (tide_range : ℚ × ℚ) (d : Dataset) (t : Timestep) :
    (t ∈ (tideFilter tide_range d).steps ↔
        t ∈ d.steps ∧ tide_range.1 < t.tide_height ∧ t.tide_height < tide_range.2) ∧
      ((t.tide_height = tide_range.1 ∨ t.tide_height = tide_range.2) →
        t ∉ (tideFilter tide_range d).steps) := by
  constructor
  · simp [tideFilter, List.mem_filter, and_assoc]
  · rintro (h | h) hmem
    · simp [tideFilter, List.mem_filter, h] at hmem
    · simp [tideFilter, List.mem_filter, h] at hmem

/-- C9 -- tide filtering removes whole timesteps only: the filtered series is
a sublist of the original, and every timestep strictly inside the range is
retained with every band value at every pixel unaltered. -/
theorem C9_tideFilter_frame (tide_range : ℚ × ℚ) (d : Dataset) :
    (tideFilter tide_range d).steps.Sublist d.steps ∧
      ∀ t ∈ d.steps, tide_range.1 < t.tide_height → t.tide_height < tide_range.2 →
        ∃ t' ∈ (tideFilter tide_range d).steps, t' = t ∧
          (∀ name i j, getCell (t'.band name) i j = getCell (t.band name) i j) ∧
          t'.tide_height = t.tide_height := by
  constructor
  · exact List.filter_sublist _
  · intro t ht h1 h2
    refine ⟨t, ?_, rfl, fun _ _ _ => rfl, rfl⟩
    simp [tideFilter, List.mem_filter, ht, h1, h2]

/-- Insert into a sorted list of rationals. -/
def insertSorted (x : ℚ) : List ℚ → List ℚ
  | [] => [x]
  | y :: ys => if x ≤ y then x :: y :: ys else y :: insertSorted x ys

/-- Sort a list of rationals (insertion sort), as `numpy` sorts before taking
a median. -/
def sortRats : List ℚ → List ℚ
  | [] => []
  | x :: xs => insertSorted x (sortRats xs)

/-- The median of a list of rationals, `numpy`-style: sort; middle element for
odd length, mean of the two middle elements for even length, NaN for the
empty list. -/
def listMedian (l : List ℚ) : Val :=
  let s := sortRats l
  if s.length = 0 then none
  else if s.length % 2 = 1 then s.get? (s.length / 2)
  else do
    let a ← s.get? (s.length / 2 - 1)
    let b ← s.get? (s.length / 2)
    pure ((a + b) / 2)

/-- The median of a list of cells: NaN cells are skipped
(`median` with xarray's default `skipna=True`), NaN if none remain. -/
def medianVals (l : List Val) : Val :=
  listMedian (l.filterMap id)

/-- The `MNDWI` variable of a timestep at pixel `(i, j)`. -/
def Timestep.mndwiCell (t : Timestep) (i j : Nat) : Val :=
  getCell (t.band "MNDWI") i j

/-- The aggregation periods of a series under the period key `keyOf`
(e.g. the calendar year for `time_step = '1Y'`): the distinct keys in order
of first appearance. -/
def periodsOf {κ : Type} [DecidableEq κ] (keyOf : Timestep → κ)
    (steps : List Timestep) : List κ :=
  (steps.map keyOf).dedup

/-- `landsat_hightide.MNDWI.resample(time=time_step).median('time')`: one
composite layer per aggregation period, each cell the median of the `MNDWI`
cells of the timesteps assigned to that period. -/
def resampleMedian {κ : Type} [DecidableEq κ] (keyOf : Timestep → κ)
    (d : Dataset) : List (κ × Grid) :=
  (periodsOf keyOf d.steps).map (fun k =>
    (k, mkGrid d.ny d.nx (fun i j =>
      medianVals ((d.steps.filter (fun t => decide (keyOf t = k))).map
        (fun t => t.mndwiCell i j)))))

/-- The notebook's `landsat_hightide`: the series with `MNDWI` and tide
heights attached, filtered to the tide range. -/
def landsat_hightide (est : Datetime → ℚ) (tide_range : ℚ × ℚ) (d : Dataset) : Dataset :=
  tideFilter tide_range (addTide est (addMNDWI d))

/-- The notebook's `landsat_resampled`: the per-period median composites of
`landsat_hightide`'s water index. -/
def landsat_resampled {κ : Type} [DecidableEq κ] (keyOf : Timestep → κ)
    (est : Datetime → ℚ) (tide_range : ℚ × ℚ) (d : Dataset) : List (κ × Grid) :=
  resampleMedian keyOf (landsat_hightide est tide_range d)

/-- Reading a built raster: in-range cells give the cell function, the rest NaN. -/
theorem getCell_mkGrid (ny nx : Nat) (f : Nat → Nat → Val) (i j : Nat) :
    getCell (mkGrid ny nx f) i j =
      if i < ny then (if j < nx then f i j else none) else none := by
  unfold getCell mkGrid
  by_cases hi : i < ny
  · by_cases hj : j < nx
    · simp [List.getElem?_map, List.getElem?_range, hi, hj]
    · have hj' : nx ≤ j := le_of_not_lt hj
      have hnone : (List.range nx)[j]? = none := by
        simp [List.getElem?_eq_none_iff, hj']
      simp [List.getElem?_map, List.getElem?_range, hi, hj, hnone]
  · have hi' : ny ≤ i := le_of_not_lt hi
    have hnone : (List.range ny)[i]? = none := by
      simp [List.getElem?_eq_none_iff, hi']
    simp [List.getElem?_map, hnone, hi]

/-- The filtered series keeps the dataset's grid shape. -/
theorem landsat_hightide_ny (est : Datetime → ℚ) (tide_range : ℚ × ℚ) (d : Dataset) :
    (landsat_hightide est tide_range d).ny = d.ny := rfl

/-- The filtered series keeps the dataset's grid shape. -/
theorem landsat_hightide_nx (est : Datetime → ℚ) (tide_range : ℚ × ℚ) (d : Dataset) :
    (landsat_hightide est tide_range d).nx = d.nx := rfl

/-- C3 -- compositing yields exactly one layer per aggregation period (the
distinct period keys of the tide-filtered series, without repetition), and
each layer's cell at every in-range pixel is the median of that pixel's
water-index values across the tide-filtered timesteps assigned to that
period. -/
theorem C3_composite_median {κ : Type} [DecidableEq κ] (keyOf : Timestep → κ)
    (est : Datetime → ℚ) (tide_range : ℚ × ℚ) (d : Dataset) :
    (landsat_resampled keyOf est tide_range d).map Prod.fst =
        ((landsat_hightide est tide_range d).steps.map keyOf).dedup ∧
      ((landsat_resampled keyOf est tide_range d).map Prod.fst).Nodup ∧
      ∀ kg ∈ landsat_resampled keyOf est tide_range d, ∀ i j, i < d.ny → j < d.nx →
        getCell kg.2 i j =
          medianVals (((landsat_hightide est tide_range d).steps.filter
            (fun t => decide (keyOf t = kg.1))).map (fun t => t.mndwiCell i j)) := by
  have h1 : (landsat_resampled keyOf est tide_range d).map Prod.fst =
      ((landsat_hightide est tide_range d).steps.map keyOf).dedup := by
    simp [landsat_resampled, resampleMedian, periodsOf, List.map_map, Function.comp_def]
  refine ⟨h1, h1 ▸ List.nodup_dedup _, ?_⟩
  intro kg hkg i j hi hj
  unfold landsat_resampled resampleMedian at hkg
  rcases List.mem_map.mp hkg with ⟨k, hk, rfl⟩
  rw [getCell_mkGrid]
  rw [landsat_hightide_ny, landsat_hightide_nx]
  simp [hi, hj]

/-- The bands requested from `load_cloudmaskedlandsat` in the notebook. -/
def ls8Bands : List String := ["red", "green", "blue", "swir1"]

/-- A built raster is well-formed on its grid. -/
theorem gridWF_mkGrid (ny nx : Nat) (f : Nat → Nat → Val) :
    gridWF ny nx (mkGrid ny nx f) := by
  constructor
  · simp [mkGrid]
  · intro row hrow
    simp [mkGrid] at hrow
    obtain ⟨i, hi, rfl⟩ := hrow
    simp

/-- Loading yields the uniform-grid, uniform-band invariant. -/
theorem load_cloudmaskedlandsat_uniform (crs : String) (transform : List ℚ)
    (ny nx : Nat) (bands : List String) (scenes : List SceneData) :
    (load_cloudmaskedlandsat crs transform ny nx bands scenes).uniform bands := by
  intro t ht
  simp only [load_cloudmaskedlandsat, List.mem_map] at ht
  obtain ⟨sc, hsc, rfl⟩ := ht
  constructor
  · simp [Timestep.bandNames, List.map_map, Function.comp_def]
  · intro bg hbg
    simp only [List.mem_map] at hbg
    obtain ⟨b, hb, rfl⟩ := hbg
    exact gridWF_mkGrid ny nx _

/-- Adding the `MNDWI` variable preserves the invariant, extending the band
set by `MNDWI`. -/
theorem addMNDWI_uniform (d : Dataset) (B : List String) (h : d.uniform B) :
    (addMNDWI d).uniform (B ++ ["MNDWI"]) := by
  intro t ht
  simp only [addMNDWI, List.mem_map] at ht
  obtain ⟨t0, ht0, rfl⟩ := ht
  obtain ⟨hname, hwf⟩ := h t0 ht0
  constructor
  · simp only [Timestep.bandNames, List.map_append] at hname ⊢
    simp [hname, Timestep.bandNames]
  · intro bg hbg
    rcases List.mem_append.mp hbg with h1 | h2
    · exact hwf bg h1
    · simp only [List.mem_singleton] at h2
      subst h2
      exact gridWF_mkGrid d.ny d.nx _

/-- Attaching tide heights preserves the invariant: bands are untouched. -/
theorem addTide_uniform (est : Datetime → ℚ) (d : Dataset) (B : List String)
    (h : d.uniform B) : (addTide est d).uniform B := by
  intro t ht
  simp only [addTide, List.mem_map] at ht
  obtain ⟨t0, ht0, rfl⟩ := ht
  obtain ⟨hname, hwf⟩ := h t0 ht0
  exact ⟨hname, hwf⟩

/-- Tide filtering preserves the invariant: retained timesteps are unchanged. -/
theorem tideFilter_uniform (tide_range : ℚ × ℚ) (d : Dataset) (B : List String)
    (h : d.uniform B) : (tideFilter tide_range d).uniform B := by
  intro t ht
  exact h t (List.mem_of_mem_filter ht)

/-- Every composite layer lives on the dataset's grid. -/
theorem resampleMedian_gridWF {κ : Type} [DecidableEq κ] (keyOf : Timestep → κ)
    (d : Dataset) : ∀ kg ∈ resampleMedian keyOf d, gridWF d.ny d.nx kg.2 := by
  intro kg hkg
  unfold resampleMedian at hkg
  obtain ⟨k, hk, rfl⟩ := List.mem_map.mp hkg
  exact gridWF_mkGrid d.ny d.nx _

/-- C6 -- after the (spec-modelled) load, all timesteps share the requested
band set and the common `ny × nx` grid, under the dataset-level CRS and
affine transform; index computation, tide attachment, tide filtering and
compositing preserve the shared grid, band set, CRS and transform. -/
theorem C6_uniform_pipeline {κ : Type} [DecidableEq κ] (keyOf : Timestep → κ)
    (crs : String) (transform : List ℚ) (ny nx : Nat) (scenes : List SceneData)
    (est : Datetime → ℚ) (tide_range : ℚ × ℚ) :
    (load_cloudmaskedlandsat crs transform ny nx ls8Bands scenes).uniform ls8Bands ∧
      (addMNDWI (load_cloudmaskedlandsat crs transform ny nx ls8Bands scenes)).uniform
        (ls8Bands ++ ["MNDWI"]) ∧
      (addTide est (addMNDWI (load_cloudmaskedlandsat crs transform ny nx ls8Bands
        scenes))).uniform (ls8Bands ++ ["MNDWI"]) ∧
      (landsat_hightide est tide_range (load_cloudmaskedlandsat crs transform ny nx
        ls8Bands scenes)).uniform (ls8Bands ++ ["MNDWI"]) ∧
      (landsat_hightide est tide_range (load_cloudmaskedlandsat crs transform ny nx
        ls8Bands scenes)).crs = crs ∧
      (landsat_hightide est tide_range (load_cloudmaskedlandsat crs transform ny nx
        ls8Bands scenes)).transform = transform ∧
      (landsat_hightide est tide_range (load_cloudmaskedlandsat crs transform ny nx
        ls8Bands scenes)).ny = ny ∧
      (landsat_hightide est tide_range (load_cloudmaskedlandsat crs transform ny nx
        ls8Bands scenes)).nx = nx ∧
      ∀ kg ∈ landsat_resampled keyOf est tide_range
        (load_cloudmaskedlandsat crs transform ny nx ls8Bands scenes),
        gridWF ny nx kg.2 := by
  have h0 := load_cloudmaskedlandsat_uniform crs transform ny nx ls8Bands scenes
  have h1 := addMNDWI_uniform _ _ h0
  have h2 := addTide_uniform est _ _ h1
  have h3 := tideFilter_uniform tide_range _ _ h2
  exact ⟨h0, h1, h2, h3, rfl, rfl, rfl, rfl,
    resampleMedian_gridWF keyOf (landsat_hightide est tide_range _)⟩

/-- The decimal digit character of `n % 10`. -/
def toDigit (n : Nat) : Char := Char.ofNat (48 + n % 10)

/-- A two-digit zero-padded decimal rendering. -/
def pad2 (n : Nat) : List Char := [toDigit (n / 10), toDigit n]

/-- A four-digit zero-padded decimal rendering (a `datetime64[ns]` year always
has four digits). -/
def pad4 (n : Nat) : List Char :=
  [toDigit (n / 1000), toDigit (n / 100), toDigit (n / 10), toDigit n]

/-- The `YYYY-MM-DD` date of a timestamp. -/
def dateChars (t : Datetime) : List Char :=
  pad4 t.year ++ '-' :: (pad2 t.month ++ '-' :: pad2 t.day)

/-- `str(i)` for a numpy `datetime64` value `i`: the ISO form
`YYYY-MM-DDThh:mm:ss...`. -/
def npDatetimeChars (t : Datetime) : List Char :=
  dateChars t ++ 'T' :: (pad2 t.hour ++ ':' :: (pad2 t.minute ++ ':' :: pad2 t.second))

/-- `attribute_data = {'time': [str(i)[0:10] for i in landsat_resampled.time.values]}`:
the per-raster labels handed to `contour_extract`. -/
def mkAttributeData (times : List Datetime) : List (List Char) :=
  times.map (fun i => (npDatetimeChars i).take 10)

/-- The date part of a timestamp renders as exactly ten characters. -/
theorem dateChars_length (t : Datetime) : (dateChars t).length = 10 := by
  simp [dateChars, pad4, pad2]

/-- C10 -- every per-period attribute label is the first 10 characters of the
string form of the period's timestamp, which is exactly its `YYYY-MM-DD`
date. -/
theorem C10_attribute_label (times : List Datetime) :
    mkAttributeData times = times.map dateChars := by
  unfold mkAttributeData
  refine List.map_congr_left (fun t ht => ?_)
  rw [npDatetimeChars, ← dateChars_length t]
  exact List.take_left _ _

/-- C10 witness: the label for `2013-12-31T00:00:00` is `2013-12-31`. -/
theorem C10_attribute_label_witness :
    mkAttributeData [⟨2013, 12, 31, 0, 0, 0⟩] =
      [['2', '0', '1', '3', '-', '1', '2', '-', '3', '1']] := by
  rw [C10_attribute_label [⟨2013, 12, 31, 0, 0, 0⟩]]
  rfl

/-- A contour polyline: a list of vertices. -/
abbrev Polyline := List (ℚ × ℚ)

/-- Modelled from the spec: `waterline_funcs.contour_extract` is invoked by
the notebook but its implementation is not in the provided material.  Per the
spec it outputs a collection of polylines tracing the iso-level boundary per
threshold per raster, each with a minimum-vertex-count filter to discard
noise-scale fragments, tagged with the caller-supplied per-raster attribute
(the period label).  The marching-squares-style tracer itself is external and
unspecified; it is abstracted as the argument `trace`. -/
def contour_extract (trace : Grid → ℚ → List Polyline) (z_values : List ℚ)
    (ds_array : List (Datetime × Grid)) (attribute_data : List (List Char))
    (min_vertices : Nat) : List (List Char × List Polyline) :=
  (ds_array.zip attribute_data).flatMap (fun ga =>
    z_values.map (fun z =>
      (ga.2, (trace ga.1.2 z).filter (fun p => decide (min_vertices ≤ p.length)))))

/-- With a single threshold, contour extraction yields one row per raster. -/
theorem contour_extract_single (trace : Grid → ℚ → List Polyline) (z : ℚ)
    (ds_array : List (Datetime × Grid)) (attribute_data : List (List Char))
    (min_vertices : Nat) :
    contour_extract trace [z] ds_array attribute_data min_vertices =
      (ds_array.zip attribute_data).map (fun ga =>
        (ga.2, (trace ga.1.2 z).filter (fun p => decide (min_vertices ≤ p.length)))) := by
  unfold contour_extract
  induction ds_array.zip attribute_data with
  | nil => rfl
  | cons ga rest ih => simp_all

/-- C7 -- over the per-period composites, with the single threshold `0` and
`min_vertices = 100`, contour extraction yields exactly one row per
aggregation period; row `n` carries the period's label and the traced
`0`-level polylines of composite `n` that have at least 100 vertices, and
every traced polyline with fewer than 100 vertices is absent from it. -/
theorem C7_contour_per_period (trace : Grid → ℚ → List Polyline)
    (keyOf : Timestep → Datetime) (est : Datetime → ℚ) (tide_range : ℚ × ℚ)
    (d : Dataset) :
    (contour_extract trace [0] (landsat_resampled keyOf est tide_range d)
        (mkAttributeData ((landsat_resampled keyOf est tide_range d).map Prod.fst))
        100).length = (landsat_resampled keyOf est tide_range d).length ∧
      ∀ n kg, (landsat_resampled keyOf est tide_range d).get? n = some kg →
        (contour_extract trace [0] (landsat_resampled keyOf est tide_range d)
            (mkAttributeData ((landsat_resampled keyOf est tide_range d).map Prod.fst))
            100).get? n =
          some ((npDatetimeChars kg.1).take 10,
            (trace kg.2 0).filter (fun p => decide (100 ≤ p.length))) ∧
        ∀ p ∈ trace kg.2 0, p.length < 100 →
          p ∉ (trace kg.2 0).filter (fun p => decide (100 ≤ p.length)) := by
  rw [contour_extract_single]
  have hlen : (mkAttributeData ((landsat_resampled keyOf est tide_range d).map
      Prod.fst)).length = (landsat_resampled keyOf est tide_range d).length := by
    simp [mkAttributeData]
  constructor
  · simp [List.length_zip, hlen]
  · intro n kg hkg
    have hattr : (mkAttributeData ((landsat_resampled keyOf est tide_range d).map
        Prod.fst)).get? n = some ((npDatetimeChars kg.1).take 10) := by
      rw [mkAttributeData, List.get?_eq_getElem?, List.getElem?_map, List.getElem?_map]
      rw [List.get?_eq_getElem?] at hkg
      rw [hkg]
      rfl
    constructor
    · have hzip : ((landsat_resampled keyOf est tide_range d).zip
          (mkAttributeData ((landsat_resampled keyOf est tide_range d).map
            Prod.fst))).get? n = some (kg, (npDatetimeChars kg.1).take 10) :=
        (List.get?_zip_eq_some _ _ _ _).mpr ⟨hkg, hattr⟩
      rw [List.get?_eq_getElem?, List.getElem?_map, ← List.get?_eq_getElem?, hzip]
      rfl
    · intro p hp hlt hmem
      rcases List.mem_filter.mp hmem with ⟨-, hdec⟩
      rw [decide_eq_true_eq] at hdec
      omega

/-- Example acquisition time. -/
def exTime1 : Datetime := ⟨2013, 6, 1, 0, 0, 0⟩

/-- A second example acquisition time in the same year. -/
def exTime2 : Datetime := ⟨2013, 7, 1, 0, 0, 0⟩

/-- The `1Y` period label covering 2013. -/
def exPeriod : Datetime := ⟨2013, 12, 31, 0, 0, 0⟩

/-- The `time_step = '1Y'` period key: the year-end label of the timestamp. -/
def exKey : Timestep → Datetime := fun t => ⟨t.time.year, 12, 31, 0, 0, 0⟩

/-- An example interpolated tide estimate. -/
def exEst : Datetime → ℚ := fun _ => 1

/-- An example tide range. -/
def exRange : ℚ × ℚ := (0, 2)

/-- An example 1×1 timestep with `green = 3`, `swir1 = 1`. -/
def exStep1 : Timestep :=
  ⟨exTime1, 0, [("green", [[some 3]]), ("swir1", [[some 1]])]⟩

/-- An example 1×1 timestep with `green = 1`, `swir1 = 3`. -/
def exStep2 : Timestep :=
  ⟨exTime2, 0, [("green", [[some 1]]), ("swir1", [[some 3]])]⟩

/-- An example two-timestep dataset on a 1×1 grid. -/
def exD : Dataset :=
  ⟨"EPSG:28352", [25, 0, 0, 0, -25, 0], 1, 1, [exStep1, exStep2]⟩

/-- The 2013 composite layer of the example dataset. -/
def exComp : Datetime × Grid :=
  (exPeriod, mkGrid 1 1 (fun i j =>
    medianVals (((landsat_hightide exEst exRange exD).steps.filter
      (fun t => decide (exKey t = exPeriod))).map (fun t => t.mndwiCell i j))))

/-- C3 witness: the example 2013 composite's only cell is the median of the
two assigned timesteps' water-index values. -/
theorem C3_composite_median_witness :
    getCell exComp.2 0 0 =
      medianVals (((landsat_hightide exEst exRange exD).steps.filter
        (fun t => decide (exKey t = exComp.1))).map (fun t => t.mndwiCell 0 0)) :=
  (C3_composite_median exKey exEst exRange exD).2.2 exComp
    (List.mem_map.mpr ⟨exPeriod, by decide, rfl⟩) 0 0 (by decide) (by decide)

/-- C2 witness: the example timestep with tide height 1 is retained for the
range `(0, 2)` and would be excluded at either endpoint. -/
theorem C2_tideFilter_strict_witness :
    (exStep1 ∈ (tideFilter exRange exD).steps ↔
        exStep1 ∈ exD.steps ∧ exRange.1 < exStep1.tide_height ∧
          exStep1.tide_height < exRange.2) ∧
      ((exStep1.tide_height = exRange.1 ∨ exStep1.tide_height = exRange.2) →
        exStep1 ∉ (tideFilter exRange exD).steps) :=
  C2_tideFilter_strict exRange exD exStep1

/-- C9 witness: on the example dataset with tide heights attached, filtering
keeps a sublist and retains the strictly-in-range first timestep unaltered. -/
theorem C9_tideFilter_frame_witness :
    (tideFilter exRange (addTide exEst exD)).steps.Sublist (addTide exEst exD).steps ∧
      ∃ t' ∈ (tideFilter exRange (addTide exEst exD)).steps,
        t' = { exStep1 with tide_height := exEst exStep1.time } ∧
        (∀ name i j, getCell (t'.band name) i j =
          getCell (Timestep.band { exStep1 with tide_height := exEst exStep1.time } name) i j) ∧
        t'.tide_height = ({ exStep1 with tide_height := exEst exStep1.time } : Timestep).tide_height :=
  ⟨(C9_tideFilter_frame exRange (addTide exEst exD)).1,
   (C9_tideFilter_frame exRange (addTide exEst exD)).2
     { exStep1 with tide_height := exEst exStep1.time } (by decide) (by decide) (by decide)⟩

/-- An example Landsat scene: every band sampled as the constant 1. -/
def exScene : SceneData := ⟨exTime1, fun _ _ _ => some 1⟩

/-- The example scene loaded onto a 1×1 grid. -/
def exLoaded : Dataset := load_cloudmaskedlandsat "EPSG:28352" [] 1 1 ls8Bands [exScene]

/-- C6 witness: the invariant holds along the pipeline on the example scene. -/
theorem C6_uniform_pipeline_witness :
    exLoaded.uniform ls8Bands ∧
      (addMNDWI exLoaded).uniform (ls8Bands ++ ["MNDWI"]) ∧
      (addTide exEst (addMNDWI exLoaded)).uniform (ls8Bands ++ ["MNDWI"]) ∧
      (landsat_hightide exEst exRange exLoaded).uniform (ls8Bands ++ ["MNDWI"]) ∧
      (landsat_hightide exEst exRange exLoaded).crs = "EPSG:28352" ∧
      (landsat_hightide exEst exRange exLoaded).transform = [] ∧
      (landsat_hightide exEst exRange exLoaded).ny = 1 ∧
      (landsat_hightide exEst exRange exLoaded).nx = 1 ∧
      ∀ kg ∈ landsat_resampled exKey exEst exRange exLoaded, gridWF 1 1 kg.2 :=
  C6_uniform_pipeline exKey "EPSG:28352" [] 1 1 [exScene] exEst exRange

/-- An example tracer: one 1-vertex fragment and one 100-vertex polyline. -/
def exTrace : Grid → ℚ → List Polyline :=
  fun _ _ => [[(0, 0)], List.replicate 100 (0, 0)]

/-- C7 witness: on the example pipeline the extraction yields one row per
period, labelled with the period's date, the 1-vertex fragment discarded. -/
theorem C7_contour_per_period_witness :
    (contour_extract exTrace [0] (landsat_resampled exKey exEst exRange exD)
        (mkAttributeData ((landsat_resampled exKey exEst exRange exD).map Prod.fst))
        100).length = (landsat_resampled exKey exEst exRange exD).length ∧
      ((contour_extract exTrace [0] (landsat_resampled exKey exEst exRange exD)
          (mkAttributeData ((landsat_resampled exKey exEst exRange exD).map Prod.fst))
          100).get? 0 =
        some ((npDatetimeChars exComp.1).take 10,
          (exTrace exComp.2 0).filter (fun p => decide (100 ≤ p.length))) ∧
        ∀ p ∈ exTrace exComp.2 0, p.length < 100 →
          p ∉ (exTrace exComp.2 0).filter (fun p => decide (100 ≤ p.length))) :=
  ⟨(C7_contour_per_period exTrace exKey exEst exRange exD).1,
   (C7_contour_per_period exTrace exKey exEst exRange exD).2 0 exComp rfl⟩

/-- C1 (amended) witness: at `green = swir1 = 1` the branch gives `some 0`. -/
theorem C1_mndwi_equal_bands_witness :
    mndwi 1 1 = if (1:ℚ) = 0 then none else some 0 :=
  C1_mndwi_equal_bands 1
